import Mathlib

/-!
Shallow embedding of the collision-object / update-flag layer of the
`ncollide` repository (files `src/pipeline/object/collision_object.rs` and
`src/dim3/vec3.rs`), together with theorems settling the specification
claims about it.

`CollisionObjectUpdateFlags` is a `bitflags` set over `u8`; we model the
flag value as a `Nat` bitmask (the five defined bits are `0b1 .. 0b10000`,
so no `u8` overflow is possible anywhere in the code).  External opaque
types (isometries, shape handles, collision groups, query types, slab
handles, graph indices) are type parameters of the embedding, exactly as
they are opaque to `collision_object.rs` itself.
-/

namespace Ncollide

/-! ## CollisionObjectUpdateFlags (collision_object.rs lines 11-47) -/

namespace CollisionObjectUpdateFlags

def POSITION_CHANGED : Nat := 0b00000001
def PREDICTED_POSITION_CHANGED : Nat := 0b00000010
def SHAPE_CHANGED : Nat := 0b000100
def COLLISION_GROUPS_CHANGED : Nat := 0b001000
def QUERY_TYPE_CHANGED : Nat := 0b0010000

/-- `bitflags` generated `all()`: union of every defined flag. -/
def all : Nat :=
  POSITION_CHANGED ||| PREDICTED_POSITION_CHANGED ||| SHAPE_CHANGED |||
    COLLISION_GROUPS_CHANGED ||| QUERY_TYPE_CHANGED

/-- `bitflags` generated `empty()`. -/
def empty : Nat := 0

/-- `bitflags` generated `is_empty()`. -/
def is_empty (f : Nat) : Bool := f == 0

/-- `bitflags` generated `intersects(other)`: some bit is common. -/
def intersects (f other : Nat) : Bool := (f &&& other) != 0

/-- Lines 23-25. -/
def needs_broad_phase_update (f : Nat) : Bool :=
  !(is_empty f)

/-- Lines 27-36. -/
def needs_narrow_phase_update (f : Nat) : Bool :=
  intersects f
    (POSITION_CHANGED ||| SHAPE_CHANGED ||| COLLISION_GROUPS_CHANGED |||
      QUERY_TYPE_CHANGED)

/-- Lines 38-42. -/
def needs_bounding_volume_update (f : Nat) : Bool :=
  intersects f (POSITION_CHANGED ||| SHAPE_CHANGED ||| QUERY_TYPE_CHANGED)

/-- Lines 44-46. -/
def needs_broad_phase_redispatch (f : Nat) : Bool :=
  intersects f (SHAPE_CHANGED ||| COLLISION_GROUPS_CHANGED ||| QUERY_TYPE_CHANGED)

end CollisionObjectUpdateFlags

/-- Flag-set inclusion on bitmasks: every bit of `a` is a bit of `b`. -/
def flagsSubset (a b : Nat) : Prop := a &&& b = a

theorem flagsSubset_refl (a : Nat) : flagsSubset a a :=
  Nat.and_self a

theorem flagsSubset_or_left (f c : Nat) : flagsSubset f (f ||| c) := by
  apply Nat.eq_of_testBit_eq
  intro i
  simp only [Nat.testBit_and, Nat.testBit_or]
  cases f.testBit i <;> simp

theorem flagsSubset_or_absorb (c f : Nat) : flagsSubset c (f ||| c) := by
  apply Nat.eq_of_testBit_eq
  intro i
  simp only [Nat.testBit_and, Nat.testBit_or]
  cases c.testBit i <;> simp

/-! ## CollisionObject (collision_object.rs lines 94-266)

Type parameters stand for the external opaque types:
`Iso` = `Isometry<N>`, `Sh` = `ShapeHandle<N>`, `CG` = `CollisionGroups`,
`QT` = `GeometricQueryType<N>`, `PH` = `BroadPhaseProxyHandle`,
`GI` = `CollisionObjectGraphIndex`, `T` = the user payload. -/

structure CollisionObject (Iso Sh CG QT PH GI T : Type) where
  proxy_handle : Option PH
  graph_index : Option GI
  position : Iso
  predicted_position : Option Iso
  shape : Sh
  collision_groups : CG
  query_type : QT
  update_flags : Nat
  data : T

namespace CollisionObject

open CollisionObjectUpdateFlags

variable {Iso Sh CG QT PH GI T : Type}

/-- Lines 109-130: constructor; flags preset to `all()`, no prediction. -/
def new (proxy_handle : Option PH) (graph_index : Option GI) (position : Iso)
    (shape : Sh) (groups : CG) (query_type : QT) (data : T) :
    CollisionObject Iso Sh CG QT PH GI T :=
  { proxy_handle := proxy_handle
    graph_index := graph_index
    position := position
    predicted_position := none
    shape := shape
    collision_groups := groups
    data := data
    query_type := query_type
    update_flags := CollisionObjectUpdateFlags.all }

/-- Lines 142-144. -/
def set_graph_index (o : CollisionObject Iso Sh CG QT PH GI T) (index : Option GI) :
    CollisionObject Iso Sh CG QT PH GI T :=
  { o with graph_index := index }

/-- Lines 150-152. -/
def clear_update_flags (o : CollisionObject Iso Sh CG QT PH GI T) :
    CollisionObject Iso Sh CG QT PH GI T :=
  { o with update_flags := CollisionObjectUpdateFlags.empty }

/-- Lines 162-164. -/
def set_proxy_handle (o : CollisionObject Iso Sh CG QT PH GI T) (handle : Option PH) :
    CollisionObject Iso Sh CG QT PH GI T :=
  { o with proxy_handle := handle }

/-- Lines 180-185: reposition, raising both bits and dropping any prediction. -/
def set_position (o : CollisionObject Iso Sh CG QT PH GI T) (pos : Iso) :
    CollisionObject Iso Sh CG QT PH GI T :=
  { o with
    update_flags := o.update_flags ||| POSITION_CHANGED ||| PREDICTED_POSITION_CHANGED
    position := pos
    predicted_position := none }

/-- Lines 189-194. -/
def set_position_with_prediction (o : CollisionObject Iso Sh CG QT PH GI T)
    (pos prediction : Iso) : CollisionObject Iso Sh CG QT PH GI T :=
  { o with
    update_flags := o.update_flags ||| POSITION_CHANGED ||| PREDICTED_POSITION_CHANGED
    position := pos
    predicted_position := some prediction }

/-- Lines 198-201. -/
def set_predicted_position (o : CollisionObject Iso Sh CG QT PH GI T)
    (pos : Option Iso) : CollisionObject Iso Sh CG QT PH GI T :=
  { o with
    update_flags := o.update_flags ||| PREDICTED_POSITION_CHANGED
    predicted_position := pos }

/-- Lines 207-214. `deform sh coords` models
`sh.make_mut().as_deformable_shape_mut()` followed by
`set_deformations(coords)`: `none` when the shape is not deformable (the
`expect` panics), `some sh2` with the deformed shape otherwise.  The
source raises `POSITION_CHANGED` before this check, so a panic
(`Except.error`) still carries that flag mutation, which a caller that
catches the unwind can observe on the object. -/
def set_deformations (deform : Sh → List T → Option Sh)
    (o : CollisionObject Iso Sh CG QT PH GI T) (coords : List T) :
    Except (CollisionObject Iso Sh CG QT PH GI T)
      (CollisionObject Iso Sh CG QT PH GI T) :=
  let o1 := { o with update_flags := o.update_flags ||| POSITION_CHANGED }
  match deform o1.shape coords with
  | some sh2 => Except.ok { o1 with shape := sh2 }
  | none => Except.error o1

/-- Lines 224-227. -/
def set_shape (o : CollisionObject Iso Sh CG QT PH GI T) (shape : Sh) :
    CollisionObject Iso Sh CG QT PH GI T :=
  { o with
    update_flags := o.update_flags ||| SHAPE_CHANGED
    shape := shape }

/-- Lines 236-239. -/
def set_collision_groups (o : CollisionObject Iso Sh CG QT PH GI T) (groups : CG) :
    CollisionObject Iso Sh CG QT PH GI T :=
  { o with
    update_flags := o.update_flags ||| COLLISION_GROUPS_CHANGED
    collision_groups := groups }

/-- Lines 250-253. -/
def set_query_type (o : CollisionObject Iso Sh CG QT PH GI T) (query_type : QT) :
    CollisionObject Iso Sh CG QT PH GI T :=
  { o with
    update_flags := o.update_flags ||| QUERY_TYPE_CHANGED
    query_type := query_type }

end CollisionObject

/-! ## Vec3 (dim3/vec3.rs) -/

structure Vec3 (T : Type) where
  x : T
  y : T
  z : T
deriving DecidableEq

/-- Lines 20-21 of vec3.rs. -/
def vec3 {T : Type} (x y z : T) : Vec3 T := ⟨x, y, z⟩

namespace Vec3

variable {T : Type}

/-- Lines 29-33. -/
def add [Add T] (v other : Vec3 T) : Vec3 T :=
  vec3 (v.x + other.x) (v.y + other.y) (v.z + other.z)

/-- Lines 35-39. -/
def sub [Sub T] (v other : Vec3 T) : Vec3 T :=
  vec3 (v.x - other.x) (v.y - other.y) (v.z - other.z)

/-- Lines 112-116. -/
def neg [Neg T] (v : Vec3 T) : Vec3 T :=
  vec3 (-v.x) (-v.y) (-v.z)

/-- Lines 118-122. -/
def dot [Mul T] [Add T] (v other : Vec3 T) : T :=
  v.x * other.x + v.y * other.y + v.z * other.z

/-- Lines 127-128. -/
def sqnorm [Mul T] [Add T] (v : Vec3 T) : T :=
  v.dot v

/-- Lines 130-131.  The scalar square root comes from the `Algebraic`
bound on `T` in the source; it is passed explicitly here. -/
def norm [Mul T] [Add T] (sqrt : T → T) (v : Vec3 T) : T :=
  sqrt v.sqnorm

/-- Lines 133-138. -/
def normalized [Mul T] [Add T] [Div T] (sqrt : T → T) (v : Vec3 T) : Vec3 T :=
  let l := v.norm sqrt
  vec3 (v.x / l) (v.y / l) (v.z / l)

/-- Lines 152-162: cross product by the standard determinant expansion. -/
def cross [Mul T] [Sub T] (v other : Vec3 T) : Vec3 T :=
  vec3
    (v.y * other.z - v.z * other.y)
    (v.z * other.x - v.x * other.z)
    (v.x * other.y - v.y * other.x)

/-- Lines 180-186. -/
def canonical_basis [One T] [Zero T] : List (Vec3 T) :=
  [vec3 1 0 0, vec3 0 1 0, vec3 0 0 1]

/-- Lines 188-197: borrow from the axis chosen by comparing `|x|` and
`|y|`; normalize the candidate; return it with its cross product with
`self`.  The source bounds `T` by `One + Zero + Neg + Ord + Mul + Sub +
Add + Div + Algebraic`, i.e. an ordered field with a square root. -/
def orthogonal_subspace_basis [LinearOrderedField T]
    (sqrt : T → T) (v : Vec3 T) : List (Vec3 T) :=
  let a :=
    if |v.x| > |v.y| then (vec3 v.z 0 (-v.x)).normalized sqrt
    else (vec3 0 (-v.z) v.y).normalized sqrt
  [a, a.cross v]

end Vec3

/-! ## AABB and the two bounding-volume algorithms
(collision_object.rs lines 49-79, `CollisionObjectRef`)

The `AABB` type and its `loosen`/`merge` methods live in the repository's
`bounding_volume` module, which is not under the provided sources; they
are modelled from the spec below. -/

/-- Modelled from the spec: the repository's `bounding_volume::AABB`
(missing from the provided sources) — "axis-aligned bounding box, the
minimal coordinate-aligned box enclosing a shape at a position", held as
its two extremal corners. -/
structure AABB (N : Type) where
  mins : Vec3 N
  maxs : Vec3 N
deriving DecidableEq

namespace AABB

variable {N : Type}

/-- Modelled from the spec: `AABB::loosen(margin)` (missing from the
provided sources) — "bounding-volume computation ... with margin
loosening": the box grown by `margin` in every axis direction. -/
def loosen [Add N] [Sub N] (a : AABB N) (margin : N) : AABB N :=
  { mins := vec3 (a.mins.x - margin) (a.mins.y - margin) (a.mins.z - margin)
    maxs := vec3 (a.maxs.x + margin) (a.maxs.y + margin) (a.maxs.z + margin) }

/-- Modelled from the spec: `BoundingVolume::merge` (missing from the
provided sources) — "swept variant merges two boxes" into "their minimal
enclosing box": componentwise min of the mins and max of the maxs. -/
def merge [LinearOrder N] (a b : AABB N) : AABB N :=
  { mins := vec3 (min a.mins.x b.mins.x) (min a.mins.y b.mins.y) (min a.mins.z b.mins.z)
    maxs := vec3 (max a.maxs.x b.maxs.x) (max a.maxs.y b.maxs.y) (max a.maxs.z b.maxs.z) }

/-- Box containment: `a` lies inside `b` (componentwise corner bounds). -/
def inside [LE N] (a b : AABB N) : Prop :=
  b.mins.x ≤ a.mins.x ∧ b.mins.y ≤ a.mins.y ∧ b.mins.z ≤ a.mins.z ∧
    a.maxs.x ≤ b.maxs.x ∧ a.maxs.y ≤ b.maxs.y ∧ a.maxs.z ≤ b.maxs.z

end AABB

namespace CollisionObject

variable {Iso Sh CG QT PH GI T N : Type}

/-- Lines 59-63 of collision_object.rs: `CollisionObjectRef::compute_aabb`,
instantiated at the concrete record (whose accessors are the trait's).
`aabbOf` models the external `bounding_volume::aabb(shape, position)` and
`query_limit` the external `GeometricQueryType::query_limit()`. -/
def compute_aabb [Add N] [Sub N] (aabbOf : Sh → Iso → AABB N)
    (query_limit : QT → N) (o : CollisionObject Iso Sh CG QT PH GI T) : AABB N :=
  (aabbOf o.shape o.position).loosen (query_limit o.query_type)

/-- Lines 65-78 of collision_object.rs: `CollisionObjectRef::compute_swept_aabb`. -/
def compute_swept_aabb [Add N] [Sub N] [LinearOrder N]
    (aabbOf : Sh → Iso → AABB N) (query_limit : QT → N)
    (o : CollisionObject Iso Sh CG QT PH GI T) : AABB N :=
  match o.predicted_position with
  | some predicted_pos =>
    let aabb1 := aabbOf o.shape o.position
    let aabb2 := aabbOf o.shape predicted_pos
    let margin := query_limit o.query_type
    (aabb1.loosen margin).merge (aabb2.loosen margin)
  | none => compute_aabb aabbOf query_limit o

/-- The `update_flags` value observable after a `set_deformations` call,
whether it returned normally or panicked. -/
def exceptUpdateFlags {Iso Sh CG QT PH GI T : Type}
    (e : Except (CollisionObject Iso Sh CG QT PH GI T)
      (CollisionObject Iso Sh CG QT PH GI T)) : Nat :=
  match e with
  | Except.ok o2 => o2.update_flags
  | Except.error o2 => o2.update_flags

end CollisionObject

/-! ## Concrete instantiation used by witnesses and counterexamples -/

/-- A freshly constructed collision object over trivial external types. -/
def sampleObject : CollisionObject Unit Unit Unit Unit Unit Unit Unit :=
  CollisionObject.new none none () () () () ()

/-- A shape-deformation action that always fails: the shape is not
deformable (`as_deformable_shape_mut` returns `None`). -/
def deformNone : Unit → List Unit → Option Unit := fun _ _ => none

/-- A shape-deformation action that always succeeds. -/
def deformOk : Unit → List Unit → Option Unit := fun _ _ => some ()

/-! ## Claim theorems -/

open CollisionObjectUpdateFlags

/-- C1: for every collision object, `set_position p` raises both the
POSITION_CHANGED and PREDICTED_POSITION_CHANGED bits of `update_flags`,
sets `position` to `p`, and resets `predicted_position` to `none` — in
particular even when a prediction was previously `some`, since the result
does not depend on the previous `predicted_position`. -/
theorem set_position_repositions_and_drops_prediction
    {Iso Sh CG QT PH GI T : Type} (o : CollisionObject Iso Sh CG QT PH GI T)
    (p : Iso) :
    flagsSubset (POSITION_CHANGED ||| PREDICTED_POSITION_CHANGED)
        (o.set_position p).update_flags ∧
      (o.set_position p).position = p ∧
      (o.set_position p).predicted_position = none := by
  refine ⟨?_, rfl, rfl⟩
  show flagsSubset (POSITION_CHANGED ||| PREDICTED_POSITION_CHANGED)
    (o.update_flags ||| POSITION_CHANGED ||| PREDICTED_POSITION_CHANGED)
  rw [Nat.or_assoc]
  exact flagsSubset_or_absorb _ _

/-- C3: after `clear_update_flags` followed by `set_predicted_position
(some pr)` alone, only the broad-phase-update predicate holds. -/
theorem set_predicted_position_alone_predicates
    {Iso Sh CG QT PH GI T : Type} (o : CollisionObject Iso Sh CG QT PH GI T)
    (pr : Iso) :
    needs_broad_phase_update
        ((o.clear_update_flags.set_predicted_position (some pr)).update_flags) = true ∧
      needs_narrow_phase_update
        ((o.clear_update_flags.set_predicted_position (some pr)).update_flags) = false ∧
      needs_bounding_volume_update
        ((o.clear_update_flags.set_predicted_position (some pr)).update_flags) = false ∧
      needs_broad_phase_redispatch
        ((o.clear_update_flags.set_predicted_position (some pr)).update_flags) = false := by
  have hf : (o.clear_update_flags.set_predicted_position (some pr)).update_flags
      = empty ||| PREDICTED_POSITION_CHANGED := rfl
  simp only [hf]
  decide

/-- C4: after `clear_update_flags` followed by `set_collision_groups g`
alone, every predicate except bounding-volume-update holds. -/
theorem set_collision_groups_alone_predicates
    {Iso Sh CG QT PH GI T : Type} (o : CollisionObject Iso Sh CG QT PH GI T)
    (g : CG) :
    needs_broad_phase_update
        ((o.clear_update_flags.set_collision_groups g).update_flags) = true ∧
      needs_narrow_phase_update
        ((o.clear_update_flags.set_collision_groups g).update_flags) = true ∧
      needs_bounding_volume_update
        ((o.clear_update_flags.set_collision_groups g).update_flags) = false ∧
      needs_broad_phase_redispatch
        ((o.clear_update_flags.set_collision_groups g).update_flags) = true := by
  have hf : (o.clear_update_flags.set_collision_groups g).update_flags
      = empty ||| COLLISION_GROUPS_CHANGED := rfl
  simp only [hf]
  decide

/-- C5: a freshly constructed object has all five flag bits set and all
four predicates true; immediately after `clear_update_flags` the flag set
is empty and all four predicates are false. -/
theorem new_flags_all_and_clear_flags_empty
    {Iso Sh CG QT PH GI T : Type} (ph : Option PH) (gi : Option GI)
    (pos : Iso) (sh : Sh) (g : CG) (qt : QT) (d : T) :
    (CollisionObject.new ph gi pos sh g qt d :
        CollisionObject Iso Sh CG QT PH GI T).update_flags = all ∧
      intersects (CollisionObject.new ph gi pos sh g qt d :
        CollisionObject Iso Sh CG QT PH GI T).update_flags POSITION_CHANGED = true ∧
      intersects (CollisionObject.new ph gi pos sh g qt d :
        CollisionObject Iso Sh CG QT PH GI T).update_flags PREDICTED_POSITION_CHANGED = true ∧
      intersects (CollisionObject.new ph gi pos sh g qt d :
        CollisionObject Iso Sh CG QT PH GI T).update_flags SHAPE_CHANGED = true ∧
      intersects (CollisionObject.new ph gi pos sh g qt d :
        CollisionObject Iso Sh CG QT PH GI T).update_flags COLLISION_GROUPS_CHANGED = true ∧
      intersects (CollisionObject.new ph gi pos sh g qt d :
        CollisionObject Iso Sh CG QT PH GI T).update_flags QUERY_TYPE_CHANGED = true ∧
      needs_broad_phase_update (CollisionObject.new ph gi pos sh g qt d :
        CollisionObject Iso Sh CG QT PH GI T).update_flags = true ∧
      needs_narrow_phase_update (CollisionObject.new ph gi pos sh g qt d :
        CollisionObject Iso Sh CG QT PH GI T).update_flags = true ∧
      needs_bounding_volume_update (CollisionObject.new ph gi pos sh g qt d :
        CollisionObject Iso Sh CG QT PH GI T).update_flags = true ∧
      needs_broad_phase_redispatch (CollisionObject.new ph gi pos sh g qt d :
        CollisionObject Iso Sh CG QT PH GI T).update_flags = true ∧
      ((CollisionObject.new ph gi pos sh g qt d :
        CollisionObject Iso Sh CG QT PH GI T).clear_update_flags).update_flags = empty ∧
      needs_broad_phase_update ((CollisionObject.new ph gi pos sh g qt d :
        CollisionObject Iso Sh CG QT PH GI T).clear_update_flags).update_flags = false ∧
      needs_narrow_phase_update ((CollisionObject.new ph gi pos sh g qt d :
        CollisionObject Iso Sh CG QT PH GI T).clear_update_flags).update_flags = false ∧
      needs_bounding_volume_update ((CollisionObject.new ph gi pos sh g qt d :
        CollisionObject Iso Sh CG QT PH GI T).clear_update_flags).update_flags = false ∧
      needs_broad_phase_redispatch ((CollisionObject.new ph gi pos sh g qt d :
        CollisionObject Iso Sh CG QT PH GI T).clear_update_flags).update_flags = false := by
  have h1 : (CollisionObject.new ph gi pos sh g qt d :
      CollisionObject Iso Sh CG QT PH GI T).update_flags = all := rfl
  have h2 : ((CollisionObject.new ph gi pos sh g qt d :
      CollisionObject Iso Sh CG QT PH GI T).clear_update_flags).update_flags = empty := rfl
  simp only [h1, h2]
  decide

/-- C8: every mutator of `CollisionObject` only adds bits to
`update_flags`: the flag set after the call is a superset of the one
before, for `set_position`, `set_position_with_prediction`,
`set_predicted_position`, `set_deformations` (whether it succeeds or
panics), `set_shape`, `set_collision_groups`, `set_query_type`,
`set_graph_index`, and `set_proxy_handle`. -/
theorem mutators_monotone_update_flags
    {Iso Sh CG QT PH GI T : Type} (o : CollisionObject Iso Sh CG QT PH GI T)
    (p pr : Iso) (popt : Option Iso) (sh : Sh) (g : CG) (qt : QT)
    (i : Option GI) (h : Option PH) (deform : Sh → List T → Option Sh)
    (coords : List T) :
    flagsSubset o.update_flags (o.set_position p).update_flags ∧
      flagsSubset o.update_flags (o.set_position_with_prediction p pr).update_flags ∧
      flagsSubset o.update_flags (o.set_predicted_position popt).update_flags ∧
      flagsSubset o.update_flags
        (CollisionObject.exceptUpdateFlags (CollisionObject.set_deformations deform o coords)) ∧
      flagsSubset o.update_flags (o.set_shape sh).update_flags ∧
      flagsSubset o.update_flags (o.set_collision_groups g).update_flags ∧
      flagsSubset o.update_flags (o.set_query_type qt).update_flags ∧
      flagsSubset o.update_flags (o.set_graph_index i).update_flags ∧
      flagsSubset o.update_flags (o.set_proxy_handle h).update_flags := by
  refine ⟨?_, ?_, flagsSubset_or_left _ _, ?_, flagsSubset_or_left _ _,
    flagsSubset_or_left _ _, flagsSubset_or_left _ _, flagsSubset_refl _,
    flagsSubset_refl _⟩
  · show flagsSubset o.update_flags
      (o.update_flags ||| POSITION_CHANGED ||| PREDICTED_POSITION_CHANGED)
    rw [Nat.or_assoc]
    exact flagsSubset_or_left _ _
  · show flagsSubset o.update_flags
      (o.update_flags ||| POSITION_CHANGED ||| PREDICTED_POSITION_CHANGED)
    rw [Nat.or_assoc]
    exact flagsSubset_or_left _ _
  · cases hd : deform o.shape coords <;>
      simp only [CollisionObject.set_deformations, hd,
        CollisionObject.exceptUpdateFlags] <;>
      exact flagsSubset_or_left _ _

/-- C9: `set_graph_index` and `set_proxy_handle` change only their own
field: the result is the input record with just that field replaced, so
`update_flags` — and hence each of the four predicates — is unchanged. -/
theorem set_graph_index_proxy_handle_frame
    {Iso Sh CG QT PH GI T : Type} (o : CollisionObject Iso Sh CG QT PH GI T)
    (i : Option GI) (h : Option PH) :
    o.set_graph_index i = { o with graph_index := i } ∧
      (o.set_graph_index i).update_flags = o.update_flags ∧
      needs_broad_phase_update (o.set_graph_index i).update_flags =
        needs_broad_phase_update o.update_flags ∧
      needs_narrow_phase_update (o.set_graph_index i).update_flags =
        needs_narrow_phase_update o.update_flags ∧
      needs_bounding_volume_update (o.set_graph_index i).update_flags =
        needs_bounding_volume_update o.update_flags ∧
      needs_broad_phase_redispatch (o.set_graph_index i).update_flags =
        needs_broad_phase_redispatch o.update_flags ∧
      o.set_proxy_handle h = { o with proxy_handle := h } ∧
      (o.set_proxy_handle h).update_flags = o.update_flags ∧
      needs_broad_phase_update (o.set_proxy_handle h).update_flags =
        needs_broad_phase_update o.update_flags ∧
      needs_narrow_phase_update (o.set_proxy_handle h).update_flags =
        needs_narrow_phase_update o.update_flags ∧
      needs_bounding_volume_update (o.set_proxy_handle h).update_flags =
        needs_bounding_volume_update o.update_flags ∧
      needs_broad_phase_redispatch (o.set_proxy_handle h).update_flags =
        needs_broad_phase_redispatch o.update_flags := by
  refine ⟨rfl, rfl, rfl, rfl, rfl, rfl, rfl, rfl, rfl, rfl, rfl, rfl⟩

/-- C2 counterexample: on a non-deformable shape, `set_deformations` does
panic, but the state observable at the panic (the `Except.error` payload)
has POSITION_CHANGED raised: `update_flags` is NOT left unchanged, because
the source raises the flag before the deformability check.  Here the
object has freshly cleared flags, so the pre-call value is `empty` while
the panic-time value is `empty ||| POSITION_CHANGED`. -/
theorem set_deformations_failure_mutates_flags_counterexample :
    CollisionObject.set_deformations deformNone sampleObject.clear_update_flags [] =
      Except.error { sampleObject.clear_update_flags with
        update_flags := empty ||| POSITION_CHANGED } ∧
      empty ||| POSITION_CHANGED ≠ sampleObject.clear_update_flags.update_flags := by
  refine ⟨rfl, by decide⟩

/-- C2 (amended): on a non-deformable shape, `set_deformations` fails
fatally and leaves every field other than `update_flags` unchanged — no
partial mutation of position, shape, groups, query type, handles or data —
but `update_flags` has gained exactly the POSITION_CHANGED bit by the
time of the failure. -/
theorem set_deformations_failure_raises_position_changed
    {Iso Sh CG QT PH GI T : Type} (o : CollisionObject Iso Sh CG QT PH GI T)
    (deform : Sh → List T → Option Sh) (coords : List T)
    (h : deform o.shape coords = none) :
    CollisionObject.set_deformations deform o coords =
      Except.error { o with update_flags := o.update_flags ||| POSITION_CHANGED } := by
  simp only [CollisionObject.set_deformations, h]

/-- Witness for the amended C2 at a concrete non-deformable object. -/
theorem set_deformations_failure_raises_position_changed_witness :
    CollisionObject.set_deformations deformNone sampleObject [] =
      Except.error { sampleObject with
        update_flags := sampleObject.update_flags ||| POSITION_CHANGED } :=
  set_deformations_failure_raises_position_changed sampleObject deformNone [] rfl

/-- C10: a successful `set_deformations` raises POSITION_CHANGED and not
SHAPE_CHANGED: starting from cleared flags, the result's flag set is
exactly `{POSITION_CHANGED}`, so bounding-volume-update and
narrow-phase-update hold while broad-phase-redispatch does not. -/
theorem set_deformations_success_predicates
    {Iso Sh CG QT PH GI T : Type} (o : CollisionObject Iso Sh CG QT PH GI T)
    (deform : Sh → List T → Option Sh) (coords : List T)
    (o2 : CollisionObject Iso Sh CG QT PH GI T)
    (h : CollisionObject.set_deformations deform o.clear_update_flags coords =
      Except.ok o2) :
    o2.update_flags = empty ||| POSITION_CHANGED ∧
      intersects o2.update_flags POSITION_CHANGED = true ∧
      intersects o2.update_flags SHAPE_CHANGED = false ∧
      needs_bounding_volume_update o2.update_flags = true ∧
      needs_narrow_phase_update o2.update_flags = true ∧
      needs_broad_phase_redispatch o2.update_flags = false := by
  cases hd : deform o.clear_update_flags.shape coords with
  | none =>
    simp only [CollisionObject.set_deformations, hd] at h
    exact Except.noConfusion h
  | some sh2 =>
    simp only [CollisionObject.set_deformations, hd, Except.ok.injEq] at h
    have hf : o2.update_flags = empty ||| POSITION_CHANGED := by
      rw [← h]
      rfl
    simp only [hf]
    refine ⟨trivial, by decide, by decide, by decide, by decide, by decide⟩

/-- The result of a successful deformation of a freshly cleared sample
object. -/
def sampleDeformed : CollisionObject Unit Unit Unit Unit Unit Unit Unit :=
  { sampleObject.clear_update_flags with
    update_flags := empty ||| POSITION_CHANGED }

/-- Witness for C10 at a concrete deformable object. -/
theorem set_deformations_success_predicates_witness :
    sampleDeformed.update_flags = empty ||| POSITION_CHANGED ∧
      intersects sampleDeformed.update_flags POSITION_CHANGED = true ∧
      intersects sampleDeformed.update_flags SHAPE_CHANGED = false ∧
      needs_bounding_volume_update sampleDeformed.update_flags = true ∧
      needs_narrow_phase_update sampleDeformed.update_flags = true ∧
      needs_broad_phase_redispatch sampleDeformed.update_flags = false :=
  set_deformations_success_predicates sampleObject deformOk [] sampleDeformed rfl

/-! ## Bounding-volume lemmas for C6 -/

theorem AABB.inside_merge_left {N : Type} [LinearOrder N] (a b : AABB N) :
    a.inside (a.merge b) :=
  ⟨min_le_left _ _, min_le_left _ _, min_le_left _ _,
    le_max_left _ _, le_max_left _ _, le_max_left _ _⟩

theorem AABB.inside_merge_right {N : Type} [LinearOrder N] (a b : AABB N) :
    b.inside (a.merge b) :=
  ⟨min_le_right _ _, min_le_right _ _, min_le_right _ _,
    le_max_right _ _, le_max_right _ _, le_max_right _ _⟩

theorem AABB.merge_inside {N : Type} [LinearOrder N] {a b c : AABB N}
    (ha : a.inside c) (hb : b.inside c) : (a.merge b).inside c :=
  ⟨le_min ha.1 hb.1, le_min ha.2.1 hb.2.1, le_min ha.2.2.1 hb.2.2.1,
    max_le ha.2.2.2.1 hb.2.2.2.1, max_le ha.2.2.2.2.1 hb.2.2.2.2.1,
    max_le ha.2.2.2.2.2 hb.2.2.2.2.2⟩

/-- C6: with no predicted position, `compute_swept_aabb` returns exactly
the `compute_aabb` box; with a predicted position `pr`, it returns the
merge of the AABB at the current position and the AABB at `pr`, each
independently loosened by the query-type margin — and that merge is the
minimal enclosing box: it contains both loosened boxes and lies inside
every box containing both. -/
theorem compute_swept_aabb_merges_loosened_boxes
    {Iso Sh CG QT PH GI T N : Type} [Add N] [Sub N] [LinearOrder N]
    (aabbOf : Sh → Iso → AABB N) (query_limit : QT → N)
    (o : CollisionObject Iso Sh CG QT PH GI T) :
    (o.predicted_position = none →
      CollisionObject.compute_swept_aabb aabbOf query_limit o =
        CollisionObject.compute_aabb aabbOf query_limit o) ∧
      (∀ pr, o.predicted_position = some pr →
        CollisionObject.compute_swept_aabb aabbOf query_limit o =
          ((aabbOf o.shape o.position).loosen (query_limit o.query_type)).merge
            ((aabbOf o.shape pr).loosen (query_limit o.query_type)) ∧
        AABB.inside ((aabbOf o.shape o.position).loosen (query_limit o.query_type))
          (CollisionObject.compute_swept_aabb aabbOf query_limit o) ∧
        AABB.inside ((aabbOf o.shape pr).loosen (query_limit o.query_type))
          (CollisionObject.compute_swept_aabb aabbOf query_limit o) ∧
        ∀ c : AABB N,
          AABB.inside ((aabbOf o.shape o.position).loosen (query_limit o.query_type)) c →
          AABB.inside ((aabbOf o.shape pr).loosen (query_limit o.query_type)) c →
          AABB.inside (CollisionObject.compute_swept_aabb aabbOf query_limit o) c) := by
  constructor
  · intro h
    unfold CollisionObject.compute_swept_aabb
    rw [h]
  · intro pr h
    have hs : CollisionObject.compute_swept_aabb aabbOf query_limit o =
        ((aabbOf o.shape o.position).loosen (query_limit o.query_type)).merge
          ((aabbOf o.shape pr).loosen (query_limit o.query_type)) := by
      unfold CollisionObject.compute_swept_aabb
      rw [h]
    refine ⟨hs, ?_, ?_, ?_⟩
    · rw [hs]
      exact AABB.inside_merge_left _ _
    · rw [hs]
      exact AABB.inside_merge_right _ _
    · intro c h1 h2
      rw [hs]
      exact AABB.merge_inside h1 h2

/-- An external bounding-volume computation over the trivial shape and
position types, used for the C6 witness. -/
def qaabbOf : Unit → Unit → AABB ℚ := fun _ _ => { mins := vec3 0 0 0, maxs := vec3 1 1 1 }

/-- An external query-limit margin over the trivial query type. -/
def qlimit : Unit → ℚ := fun _ => 1

/-- The sample object given a predicted position. -/
def sampleWithPrediction : CollisionObject Unit Unit Unit Unit Unit Unit Unit :=
  sampleObject.set_predicted_position (some ())

/-- Witness for C6 at concrete objects, one without and one with a
predicted position. -/
theorem compute_swept_aabb_merges_loosened_boxes_witness :
    CollisionObject.compute_swept_aabb qaabbOf qlimit sampleObject =
      CollisionObject.compute_aabb qaabbOf qlimit sampleObject ∧
    CollisionObject.compute_swept_aabb qaabbOf qlimit sampleWithPrediction =
      ((qaabbOf () ()).loosen (qlimit ())).merge ((qaabbOf () ()).loosen (qlimit ())) :=
  ⟨(compute_swept_aabb_merges_loosened_boxes qaabbOf qlimit sampleObject).1 rfl,
   ((compute_swept_aabb_merges_loosened_boxes qaabbOf qlimit sampleWithPrediction).2
     () rfl).1⟩

/-- C7: `orthogonal_subspace_basis` on the unit vector `(1,0,0)` (over the
reals, with the real square root): since `|x| > |y|`, the first returned
vector is `(z,0,-x)` normalized, i.e. `(0,0,-1)`, and the second is its
cross product with the input, `(0,-1,0)`; the result has exactly these two
vectors, each orthogonal to `(1,0,0)` and orthogonal to each other. -/
theorem orthogonal_subspace_basis_unit_x :
    Vec3.orthogonal_subspace_basis Real.sqrt (vec3 (1:ℝ) 0 0) =
      [vec3 (0:ℝ) 0 (-1), vec3 (0:ℝ) (-1) 0] ∧
      Vec3.dot (vec3 (0:ℝ) 0 (-1)) (vec3 (1:ℝ) 0 0) = 0 ∧
      Vec3.dot (vec3 (0:ℝ) (-1) 0) (vec3 (1:ℝ) 0 0) = 0 ∧
      Vec3.dot (vec3 (0:ℝ) 0 (-1)) (vec3 (0:ℝ) (-1) 0) = 0 := by
  refine ⟨?_, by norm_num [Vec3.dot, vec3], by norm_num [Vec3.dot, vec3],
    by norm_num [Vec3.dot, vec3]⟩
  unfold Vec3.orthogonal_subspace_basis Vec3.normalized Vec3.norm Vec3.sqnorm
    Vec3.dot Vec3.cross
  norm_num [vec3, Real.sqrt_one]

end Ncollide
